import Mathlib

/-!
# Verification of the hydropowerlib parameter-estimation and output model

Shallow embedding of the core of `hydropowerlib` (files
`hydropowerlib/estimate.py`, `hydropowerlib/power_output.py`,
`hydropowerlib/modelchain.py`, `hydropowerlib/hydropower_plant.py`)
over the rationals, together with proofs and refutations of the frozen
claims about the natural-language specification.

Machine floats are embedded as `ℚ`; pandas `Series` become Lean lists;
`None`-able plant attributes become `Option`; Python exceptions become
`Except`.  Decimal literals from the source are written as exact
rationals (`9.81 = 981/100`, `21.3/100 = 213/1000`, ...).
-/

namespace Hydropowerlib

/-- A point of the characteristic (dV, h) diagram, `[float, float]` in the
source. -/
abbrev Point : Type := ℚ × ℚ

/-- `ccw(A, B, C)` from `estimate.py`:
`(C[1] - A[1]) * (B[0] - A[0]) > (B[1] - A[1]) * (C[0] - A[0])`. -/
def ccw (A B C : Point) : Bool :=
  decide ((C.2 - A.2) * (B.1 - A.1) > (B.2 - A.2) * (C.1 - A.1))

/-- `intersec(A, B, C)` from `estimate.py`: does the horizontal half-line
`y = A.y, x ≥ A.x` cross the half-open segment `[B,C[`?  The if/elif
chain is transcribed branch by branch. -/
def intersec (A B C : Point) : Bool :=
  if B = C then
    false
  else if B.2 = C.2 then
    false
  else if A.2 = B.2 ∧ A.1 ≤ B.1 then
    true
  else if A.2 = C.2 then
    false
  else
    let D : Point := (max B.1 C.1 + 1, A.2)
    ccw A C B ≠ ccw D C B ∧ ccw A D C ≠ ccw A D B

/-- The edge list of a polygon given by its vertices: consecutive pairs,
the last vertex wrapping back to the first.  This mirrors the loop in
`turb_type_from_phase_diagram`, where index `i == len(...)` pairs the
last vertex with vertex 1 (the rows after a NaN row of the CSV column are
not part of the polygon, so the vertex list here is the defined prefix). -/
def edgesFrom (first : Point) : List Point → List (Point × Point)
  | [] => []
  | [p] => [(p, first)]
  | p :: q :: rest => (p, q) :: edgesFrom first (q :: rest)

/-- All boundary edges of a polygon. -/
def edges : List Point → List (Point × Point)
  | [] => []
  | p :: rest => edgesFrom p (p :: rest)

/-- Number of crossings of the horizontal ray from `A` with the polygon
boundary (the `intersections` counter of the source loop). -/
def crossCount (A : Point) (poly : List Point) : ℕ :=
  (edges poly).countP (fun e => intersec A e.1 e.2)

/-- The classification loop of `turb_type_from_phase_diagram`: walk the
table in order, return the first turbine type whose polygon has an odd
crossing count (`intersections % 2 != 0`), and fall through to the
`"dummy"` sentinel (with a warning in the source) when none matches. -/
def classify (A : Point) : List (String × List Point) → String
  | [] => "dummy"
  | (name, poly) :: rest =>
      if crossCount A poly % 2 ≠ 0 then name else classify A rest

/-- The residual-flow piecewise-linear table of `dV_res_from_dV_hist`
(`estimate.py`, lines 70–83), mapping the 347-day flow-duration value to
the reserved residual flow. -/
def dV_res_map (x : ℚ) : ℚ :=
  if x ≤ 6/100 then 5/100
  else if x ≤ 16/100 then 5/100 + (x - 6/100) * 8 / 10
  else if x ≤ 1/2 then 130/1000 + (x - 16/100) * (44/10) / 10
  else if x ≤ 5/2 then 28/100 + (x - 1/2) * 31 / 100
  else if x ≤ 10 then 9/10 + (x - 5/2) * (213/10) / 100
  else if x ≤ 60 then 5/2 + (x - 10) * 150 / 1000
  else 10

/-- The 5-segment nominal-generator-efficiency table of
`eta_g_n_from_P_n` (`estimate.py`, lines 135–146), as a function of the
nominal power (the efficiency in percent, divided by 100 at the end as
in the source). -/
def eta_g_n_from_P_n (P_n : ℚ) : ℚ :=
  (if P_n < 1000 then 80
   else if P_n < 5000 then 80 + (P_n - 1000) / 1000 * 5 / 4
   else if P_n < 20000 then 85 + (P_n - 5000) / 1000 * 5 / 15
   else if P_n < 100000 then 90 + (P_n - 20000) / 1000 * 5 / 80
   else 95) / 100

/-- `np.interp(x, xp, fp, left=0, right=0)` over a list of
`(index, value)` knots, elementwise: `0` strictly left of the first knot
and strictly right of the last knot, linear in between (this is the
efficiency lookup of `output_from_eta_values`, `power_output.py`,
lines 68–69). -/
def interp0 : List (ℚ × ℚ) → ℚ → ℚ
  | [], _ => 0
  | [(x0, y0)], x => if x = x0 then y0 else 0
  | (x0, y0) :: (x1, y1) :: rest, x =>
      if x < x0 then 0
      else if x ≤ x1 then y0 + (y1 - y0) * (x - x0) / (x1 - x0)
      else interp0 ((x1, y1) :: rest) x

/-- The plant attributes read by the two output functions of
`power_output.py`: nominal flow `Q_n`, nominal head `H_n`, nominal
downstream level `W_n`, generator efficiency `eta_gen`, the explicit
`eta_turb_values` curve (load ↦ efficiency knots, Mode A) and the
`turbine_parameters` row (`load_min`, `a1`, `a2`, `a3`, `eta_n`,
Mode B). -/
structure PlantOut where
  Q_n : ℚ
  H_n : ℚ
  W_n : ℚ
  eta_gen : ℚ
  eta_turb_values : List (ℚ × ℚ)
  load_min : ℚ
  a1 : ℚ
  a2 : ℚ
  a3 : ℚ
  eta_n : ℚ
  deriving DecidableEq

/-- One timestep of `output_from_eta_values` (`power_output.py`,
lines 66–71): interpolated turbine efficiency at the uncapped load,
times `eta_gen * g * rho * min(Q, Q_n) * (H_n + W_n - W)`. -/
def output_from_eta_values (hpp : PlantOut) (rho g Q W : ℚ) : ℚ :=
  interp0 hpp.eta_turb_values (Q / hpp.Q_n) * hpp.eta_gen * g * rho *
    min Q hpp.Q_n * (hpp.H_n + hpp.W_n - W)

/-- One timestep of `output_from_parameters` (`power_output.py`,
lines 120–133): the piecewise turbine efficiency computed from the
`turbine_parameters` row (0 below `load_min`, `eta_n` at load ≥ 1,
the characteristic-equation quotient in between), then the same power
formula as Mode A — including the `(H_n + W_n - W)` level factor the
source applies on line 132 in every branch. -/
def output_from_parameters (hpp : PlantOut) (rho g Q W : ℚ) : ℚ :=
  (if Q / hpp.Q_n < hpp.load_min then 0
   else if Q / hpp.Q_n ≥ 1 then hpp.eta_n
   else (Q / hpp.Q_n - hpp.load_min) /
     (hpp.a1 + hpp.a2 * (Q / hpp.Q_n - hpp.load_min) +
       hpp.a3 * (Q / hpp.Q_n - hpp.load_min) * (Q / hpp.Q_n - hpp.load_min)))
    * hpp.eta_gen * g * rho * min Q hpp.Q_n * (hpp.H_n + hpp.W_n - W)

/-- The piecewise turbine-efficiency function exactly as the spec's
claim words it (Mode B): 0 when `load < load_min`, the type's nominal
efficiency when `load ≥ 1`, and
`(load − load_min) / (a1 + a2·(load − load_min) + a3·(load − load_min)²)`
otherwise.  Stated from the spec, to be compared with
`output_from_parameters`. -/
def eta_turbine_claim (load_min a1 a2 a3 eta_n load : ℚ) : ℚ :=
  if load < load_min then 0
  else if 1 ≤ load then eta_n
  else (load - load_min) /
    (a1 + a2 * (load - load_min) + a3 * (load - load_min) ^ 2)

/-! ## The parameter estimator (`estimate.py`) -/

/-- The plant attributes read and written by `missing_parameters`
(`estimate.py`): the optional parameters `dV_res`, `dV_n`, `P_n`, `h_n`,
`turb_type`, the turbine count `turb_num`, and the `dV_hist` attribute
the estimation steps read (`hpp.dV_hist` on lines 9 and 11; a historic
flow record, kept abstract as a list of flow values). -/
structure Hpp where
  dV_res : Option ℚ
  dV_n : Option ℚ
  P_n : Option ℚ
  h_n : Option ℚ
  turb_type : Option String
  turb_num : ℚ
  dV_hist : Option (List ℚ)
  deriving DecidableEq

/-- Errors the estimation pipeline can raise: the eager
insufficient-data `RuntimeError` of `missing_parameters`, and the
exceptions the later derivation steps would raise in Python
(`TypeError`/`AssertionError` on `None` arithmetic, missing reference
file, ...), which are never the insufficient-data error. -/
inductive EstError where
  | insufficientData
  | other
  deriving DecidableEq

/-- `can_estimate(hpp, dV_hist)` (`estimate.py`, lines 27–41):
`(h_n and P_n) or ((h_n or P_n) and (dV_hist or dV_n))`, where a
parameter counts as known when it `is not None`. -/
def can_estimate (hpp : Hpp) (dV_hist : Option (List ℚ)) : Bool :=
  (hpp.h_n.isSome && hpp.P_n.isSome) ||
    ((hpp.h_n.isSome || hpp.P_n.isSome) &&
      (dV_hist.isSome || hpp.dV_n.isSome))

/-- `dV_res_from_dV_hist(hpp, hpp.dV_hist)` (`estimate.py`,
lines 43–83).  When the history is `None` the source does `return 0`
*without assigning* `hpp.dV_res` (and the caller discards the return
value), so the plant is unchanged; otherwise `hpp.dV_res` is set to the
piecewise map of the 347-day flow-duration value.  The 10-year window,
day-of-year mean and 0.05-quantile extraction is a time-series
statistic abstracted into the parameter `dV347`; every claim that
touches this step quantifies over it. -/
def dV_res_step (dV347 : List ℚ → ℚ) (hpp : Hpp) : Hpp :=
  match hpp.dV_hist with
  | none => hpp
  | some hist => { hpp with dV_res := some (dV_res_map (dV347 hist)) }

/-- `dV_n_from_dV_hist(hpp, hpp.dV_hist)` (`estimate.py`,
lines 85–105).  With `h_n` and `P_n` both known the characteristic
equation `dV_n = P_n / (h_n · 9.81 · 1000 · 0.9 · 0.95)` is used;
otherwise the flow-duration-curve interpolation at the 20th percentile
over `hpp.dV_hist` minus `hpp.dV_res` (abstracted as `fdc20`), which in
Python raises when `hpp.dV_hist` or `hpp.dV_res` is `None`. -/
def dV_n_step (fdc20 : List ℚ → ℚ → ℚ) (hpp : Hpp) : Except EstError Hpp :=
  match hpp.h_n, hpp.P_n with
  | some h, some p =>
      .ok { hpp with dV_n := some (p / (h * (981/100) * 1000 * (9/10) * (95/100))) }
  | _, _ =>
      match hpp.dV_hist, hpp.dV_res with
      | some hist, some res => .ok { hpp with dV_n := some (fdc20 hist res) }
      | _, _ => .error .other

/-- The guard `hpp.P_n is None != hpp.h_n is None` on line 12 of
`estimate.py` is a Python *chained comparison*:
`(P_n is None) and (None != h_n) and (h_n is None)`.  Its middle and
last conjuncts contradict each other, so it is always false. -/
def P_h_guard (hpp : Hpp) : Bool :=
  hpp.P_n.isNone && !hpp.h_n.isNone && hpp.h_n.isNone

/-- `P_n_or_h_n_from_characteristic_equation_at_nominal_load`
(`estimate.py`, lines 107–125), as called under `P_h_guard`.  Its body
always raises in Python: the `assert` on line 117 demands `dV_n is
None`, after which lines 123/125 divide by `dV_n`, a `TypeError`; if
`dV_n` is not `None` the `assert` itself fails.  (The guard being
always false, this branch is unreachable anyway.) -/
def P_h_step (hpp : Hpp) : Except EstError Hpp :=
  if P_h_guard hpp then .error .other else .ok hpp

/-- `turb_type_from_phase_diagram(hpp, file_turb_graph)` (`estimate.py`,
lines 148–249): classify the operating point
`(dV_n / turb_num, h_n)` against the characteristic-diagram table
(given here already parsed, as the source parses the CSV into
per-type vertex lists); in Python the point construction raises when
`dV_n` or `h_n` is `None`. -/
def turb_type_step (table : List (String × List Point)) (hpp : Hpp) :
    Except EstError Hpp :=
  match hpp.dV_n, hpp.h_n with
  | some q, some h =>
      .ok { hpp with turb_type := some (classify (q / hpp.turb_num, h) table) }
  | _, _ => .error .other

/-- The four guarded derivation steps of `missing_parameters`
(`estimate.py`, lines 8–15), in source order, each applied only to a
parameter that is still `None`. -/
def estimation_steps (dV347 : List ℚ → ℚ) (fdc20 : List ℚ → ℚ → ℚ)
    (table : List (String × List Point)) (hpp : Hpp) : Except EstError Hpp :=
  let h1 := if hpp.dV_res.isNone then dV_res_step dV347 hpp else hpp
  (if h1.dV_n.isNone then dV_n_step fdc20 h1 else .ok h1).bind fun h2 =>
    (P_h_step h2).bind fun h3 =>
      if h3.turb_type.isNone then turb_type_step table h3 else .ok h3

/-- `missing_parameters(hpp, dV_hist, file_turb_graph)` (`estimate.py`,
lines 3–25): the eager `can_estimate` check (raising the
insufficient-data `RuntimeError` before anything is computed or
written), then the guarded derivation steps. -/
def missing_parameters (dV347 : List ℚ → ℚ) (fdc20 : List ℚ → ℚ → ℚ)
    (table : List (String × List Point)) (hpp : Hpp)
    (dV_hist : Option (List ℚ)) : Except EstError Hpp :=
  if ¬ can_estimate hpp dV_hist then .error .insufficientData
  else estimation_steps dV347 fdc20 table hpp

/-! ## Theorems -/

/-- C6: for all points `A`, `B`, `C`, the ray-crossing test returns
exactly, in this priority order: false if `B = C`; else false if
`B.y = C.y`; else true if `A.y = B.y` and `A.x ≤ B.x`; else false if
`A.y = C.y`; else, with `D = (max(B.x, C.x) + 1, A.y)`, true iff
`ccw A C B ≠ ccw D C B` and `ccw A D C ≠ ccw A D B`; and `ccw A B C` is
the strict orientation test `(C.y − A.y)(B.x − A.x) > (B.y − A.y)(C.x − A.x)`. -/
theorem intersec_characterization (A B C : Point) :
    (intersec A B C = true ↔
      B ≠ C ∧ B.2 ≠ C.2 ∧
        ((A.2 = B.2 ∧ A.1 ≤ B.1) ∨
          (¬(A.2 = B.2 ∧ A.1 ≤ B.1) ∧ A.2 ≠ C.2 ∧
            (ccw A C B ≠ ccw (max B.1 C.1 + 1, A.2) C B ∧
             ccw A (max B.1 C.1 + 1, A.2) C ≠ ccw A (max B.1 C.1 + 1, A.2) B)))) ∧
    (ccw A B C = true ↔
      (C.2 - A.2) * (B.1 - A.1) > (B.2 - A.2) * (C.1 - A.1)) := by
  constructor
  · unfold intersec
    split_ifs with h1 h2 h3 h4 <;> simp_all
  · simp [ccw]

/-- C5: turbine classification returns the first turbine type in table
order whose polygon boundary has an odd number of ray crossings with the
operating point, and the sentinel `"dummy"` when no polygon yields an
odd crossing count. -/
theorem classify_first_odd (A : Point) (table : List (String × List Point)) :
    classify A table =
      ((table.find? fun tp => decide (Odd (crossCount A tp.2))).map
        Prod.fst).getD "dummy" := by
  induction table with
  | nil => rfl
  | cons hd tl ih =>
    obtain ⟨name, poly⟩ := hd
    by_cases h : crossCount A poly % 2 ≠ 0
    · have hodd : (decide (Odd (crossCount A poly))) = true := by
        simp [Nat.odd_iff]; omega
      simp [classify, h, List.find?, hodd]
    · have heven : (decide (Odd (crossCount A poly))) = false := by
        simp [Nat.odd_iff]; omega
      simp [classify, h, List.find?, heven, ih]

/-- C3: the residual-flow piecewise-linear map is continuous at each of
its 6 breakpoints (0.06, 0.16, 0.5, 2.5, 10, 60 m³/s): the value at the
breakpoint (the segment below, breakpoints being inclusive on the left)
and the value just above it differ by less than ε = 1/100 whenever
0 < δ ≤ 1/1000.  (The largest jump is 1/400, between the ≤10 and ≤60
segments.) -/
theorem dV_res_map_continuous_at_breakpoints (δ : ℚ) (h0 : 0 < δ)
    (h1 : δ ≤ 1/1000) :
    |dV_res_map (6/100) - dV_res_map (6/100 + δ)| < 1/100 ∧
    |dV_res_map (16/100) - dV_res_map (16/100 + δ)| < 1/100 ∧
    |dV_res_map (1/2) - dV_res_map (1/2 + δ)| < 1/100 ∧
    |dV_res_map (5/2) - dV_res_map (5/2 + δ)| < 1/100 ∧
    |dV_res_map 10 - dV_res_map (10 + δ)| < 1/100 ∧
    |dV_res_map 60 - dV_res_map (60 + δ)| < 1/100 := by
  refine ⟨?_, ?_, ?_, ?_, ?_, ?_⟩
  · have e1 : dV_res_map (6/100) = 5/100 := by norm_num [dV_res_map]
    have e2 : dV_res_map (6/100 + δ) = 5/100 + δ * 8 / 10 := by
      unfold dV_res_map
      rw [if_neg (by linarith), if_pos (by linarith)]
      ring
    rw [e1, e2, abs_lt]
    constructor <;> linarith
  · have e1 : dV_res_map (16/100) = 13/100 := by norm_num [dV_res_map]
    have e2 : dV_res_map (16/100 + δ) = 13/100 + δ * (44/10) / 10 := by
      unfold dV_res_map
      rw [if_neg (by linarith), if_neg (by linarith), if_pos (by linarith)]
      ring
    rw [e1, e2, abs_lt]
    constructor <;> linarith
  · have e1 : dV_res_map (1/2) = 2796/10000 := by norm_num [dV_res_map]
    have e2 : dV_res_map (1/2 + δ) = 28/100 + δ * 31 / 100 := by
      unfold dV_res_map
      rw [if_neg (by linarith), if_neg (by linarith), if_neg (by linarith),
        if_pos (by linarith)]
      ring
    rw [e1, e2, abs_lt]
    constructor <;> linarith
  · have e1 : dV_res_map (5/2) = 9/10 := by norm_num [dV_res_map]
    have e2 : dV_res_map (5/2 + δ) = 9/10 + δ * (213/10) / 100 := by
      unfold dV_res_map
      rw [if_neg (by linarith), if_neg (by linarith), if_neg (by linarith),
        if_neg (by linarith), if_pos (by linarith)]
      ring
    rw [e1, e2, abs_lt]
    constructor <;> linarith
  · have e1 : dV_res_map 10 = 24975/10000 := by norm_num [dV_res_map]
    have e2 : dV_res_map (10 + δ) = 5/2 + δ * 150 / 1000 := by
      unfold dV_res_map
      rw [if_neg (by linarith), if_neg (by linarith), if_neg (by linarith),
        if_neg (by linarith), if_neg (by linarith), if_pos (by linarith)]
      ring
    rw [e1, e2, abs_lt]
    constructor <;> linarith
  · have e1 : dV_res_map 60 = 10 := by norm_num [dV_res_map]
    have e2 : dV_res_map (60 + δ) = 10 := by
      unfold dV_res_map
      rw [if_neg (by linarith), if_neg (by linarith), if_neg (by linarith),
        if_neg (by linarith), if_neg (by linarith), if_neg (by linarith)]
    rw [e1, e2]
    norm_num

/-- Witness for C3 at the concrete increment δ = 1/1000000. -/
theorem dV_res_map_continuous_witness :
    |dV_res_map 10 - dV_res_map (10 + 1/1000000)| < 1/100 :=
  (dV_res_map_continuous_at_breakpoints (1/1000000) (by norm_num)
    (by norm_num)).2.2.2.2.1

/-- C10: the nominal generator efficiency derived from nominal power by
the 5-segment piecewise table (breakpoints 1000, 5000, 20000, 100000 W)
is monotone non-decreasing in `P_n` and always lies in [0.80, 0.95]. -/
theorem eta_g_n_monotone_and_bounded :
    (∀ P1 P2 : ℚ, P1 ≤ P2 → eta_g_n_from_P_n P1 ≤ eta_g_n_from_P_n P2) ∧
    (∀ P : ℚ, 80/100 ≤ eta_g_n_from_P_n P ∧ eta_g_n_from_P_n P ≤ 95/100) := by
  constructor
  · intro P1 P2 h
    unfold eta_g_n_from_P_n
    split_ifs <;> linarith
  · intro P
    unfold eta_g_n_from_P_n
    split_ifs <;> constructor <;> linarith

/-- Witness for C10 at the concrete powers 500 W and 3 MW. -/
theorem eta_g_n_monotone_witness :
    (500:ℚ) ≤ 3000000 ∧
      eta_g_n_from_P_n 500 ≤ eta_g_n_from_P_n 3000000 :=
  ⟨by norm_num, eta_g_n_monotone_and_bounded.1 500 3000000 (by norm_num)⟩

/-- The derivation steps that run after the feasibility check never
produce the insufficient-data error: only the eager check does. -/
theorem estimation_steps_no_insufficient (dV347 : List ℚ → ℚ)
    (fdc20 : List ℚ → ℚ → ℚ) (table : List (String × List Point))
    (hpp : Hpp) :
    estimation_steps dV347 fdc20 table hpp ≠
      Except.error EstError.insufficientData := by
  rcases hpp with ⟨dres, dn, pn, hn, tt, tn, dh⟩
  cases dres <;> cases dn <;> cases pn <;> cases hn <;> cases tt <;> cases dh <;>
    simp [estimation_steps, dV_res_step, dV_n_step, P_h_step, P_h_guard,
      turb_type_step, Except.bind]

/-- C1: parameter estimation fails with the insufficient-data error if
and only if the feasibility predicate
`(h_n ∧ P_n) ∨ ((h_n ∨ P_n) ∧ (dV_hist ∨ dV_n))` is false; the
predicate is checked eagerly, so the failure happens before any
derivation step runs and no partial result is produced (the `.error`
branch carries no plant). -/
theorem estimator_fails_iff_infeasible (dV347 : List ℚ → ℚ)
    (fdc20 : List ℚ → ℚ → ℚ) (table : List (String × List Point))
    (hpp : Hpp) (dVh : Option (List ℚ)) :
    missing_parameters dV347 fdc20 table hpp dVh =
        Except.error EstError.insufficientData ↔
      can_estimate hpp dVh = false := by
  unfold missing_parameters
  by_cases h : can_estimate hpp dVh
  · rw [if_neg (by simp [h]), h]
    simp only [Bool.true_eq_false, iff_false]
    exact estimation_steps_no_insufficient dV347 fdc20 table hpp
  · rw [if_pos (by simpa using h)]
    simp [Bool.not_eq_true] at h
    simp [h]

/-- C9: on a plant whose parameters (residual flow, nominal flow,
nominal power, nominal head, turbine type) are all already resolved,
the estimator is a no-op: it returns the plant unchanged, so running
it twice yields exactly what running it once yields. -/
theorem estimator_idempotent (dV347 : List ℚ → ℚ)
    (fdc20 : List ℚ → ℚ → ℚ) (table : List (String × List Point))
    (hpp : Hpp) (dVh : Option (List ℚ))
    (h1 : hpp.dV_res.isSome) (h2 : hpp.dV_n.isSome) (h3 : hpp.P_n.isSome)
    (h4 : hpp.h_n.isSome) (h5 : hpp.turb_type.isSome) :
    missing_parameters dV347 fdc20 table hpp dVh = Except.ok hpp := by
  rcases hpp with ⟨dres, dn, pn, hn, tt, tn, dh⟩
  rcases dres with _ | r1
  · simp at h1
  rcases dn with _ | r2
  · simp at h2
  rcases pn with _ | r3
  · simp at h3
  rcases hn with _ | r4
  · simp at h4
  rcases tt with _ | r5
  · simp at h5
  simp [missing_parameters, can_estimate, estimation_steps, dV_res_step,
    dV_n_step, P_h_step, P_h_guard, turb_type_step, Except.bind]

/-- Witness for C9: a concrete fully-resolved plant passes through the
estimator unchanged. -/
theorem estimator_idempotent_witness :
    missing_parameters (fun _ => 0) (fun _ _ => 0) []
      { dV_res := some (1/2), dV_n := some 12, P_n := some 400000,
        h_n := some (423/100), turb_type := some "Kaplan", turb_num := 1,
        dV_hist := none } none =
      Except.ok
      { dV_res := some (1/2), dV_n := some 12, P_n := some 400000,
        h_n := some (423/100), turb_type := some "Kaplan", turb_num := 1,
        dV_hist := none } :=
  estimator_idempotent _ _ _ _ _ rfl rfl rfl rfl rfl

/-- C7 (code bug): for a plant whose residual flow is not supplied and
that has no historical flow series, estimation returns with `dV_res`
still unset — not 0.  `dV_res_from_dV_hist` does `return 0` on a `None`
history instead of assigning `hpp.dV_res`, and `missing_parameters`
discards the return value, contradicting the function's own docstring
"If dV_hist is not given, dV_res is set to 0". -/
theorem dV_res_default_never_written :
    missing_parameters (fun _ => 0) (fun _ _ => 0) []
      { dV_res := none, dV_n := some 12, P_n := some 400000,
        h_n := some (423/100), turb_type := some "Kaplan", turb_num := 1,
        dV_hist := none } none =
      Except.ok
      { dV_res := none, dV_n := some 12, P_n := some 400000,
        h_n := some (423/100), turb_type := some "Kaplan", turb_num := 1,
        dV_hist := none } := by
  rfl

/-- The concrete plant used to refute the claimed Mode B power formula:
`Q_n = 1`, `H_n = 1`, `W_n = 2`, so at level `W = 0` the level factor
`H_n + W_n − W = 3` differs from `h_n = 1`. -/
def plantLevel : PlantOut :=
  { Q_n := 1, H_n := 1, W_n := 2, eta_gen := 1, eta_turb_values := [],
    load_min := 1/10, a1 := 1, a2 := 1, a3 := 1, eta_n := 9/10 }

/-- Counterexample for C2: at flow 1 (load 1, efficiency `eta_n`),
`rho = 1000`, `g = 9.81` and level 0, `output_from_parameters` does not
equal the claimed `eta_turbine · eta_gen · 9.81 · 1000 · min(Q, Q_n) · h_n`
— the source multiplies by `(H_n + W_n − W)`, not by `H_n`. -/
theorem modeB_formula_counterexample :
    output_from_parameters plantLevel 1000 (981/100) 1 0 ≠
      eta_turbine_claim plantLevel.load_min plantLevel.a1 plantLevel.a2
          plantLevel.a3 plantLevel.eta_n (1 / plantLevel.Q_n) *
        plantLevel.eta_gen * (981/100) * 1000 * min 1 plantLevel.Q_n *
        plantLevel.H_n := by
  norm_num [output_from_parameters, eta_turbine_claim, plantLevel]

/-- C2 as amended: in Mode B the per-timestep power equals
`eta_turbine(load) · eta_gen · g · rho · min(Q, Q_n) · (H_n + W_n − W)`,
where `eta_turbine` is exactly the claimed piecewise function (0 below
`load_min`, the type's nominal efficiency at load ≥ 1, the
characteristic quotient in between) evaluated at the uncapped load —
with the water-level factor `(H_n + W_n − W)` in place of the claimed
bare `h_n`, and the modelchain-selected `g`, `rho` in place of the
claimed fixed 9.81 · 1000. -/
theorem modeB_formula_amended (hpp : PlantOut) (rho g Q W : ℚ) :
    output_from_parameters hpp rho g Q W =
      eta_turbine_claim hpp.load_min hpp.a1 hpp.a2 hpp.a3 hpp.eta_n
          (Q / hpp.Q_n) *
        hpp.eta_gen * g * rho * min Q hpp.Q_n *
        (hpp.H_n + hpp.W_n - W) := by
  simp only [output_from_parameters, eta_turbine_claim]
  split_ifs <;> ring

/-- The Mode A plant used for C4: explicit efficiency curve with domain
[0, 1] (knots (0, 0), (0.2, 0.9), (1, 0.9)) and `Q_n = 1`. -/
def plantCurve : PlantOut :=
  { Q_n := 1, H_n := 1, W_n := 2, eta_gen := 1,
    eta_turb_values := [(0, 0), (1/5, 9/10), (1, 9/10)],
    load_min := 0, a1 := 1, a2 := 0, a3 := 0, eta_n := 9/10 }

/-- C4 (code bug), evaluated at the failing input: in Mode A with the
curve above, `Q_n = 1 ≤ Q1 = 1 ≤ Q2 = 2`, yet the power at flow 2 is 0
while the power at flow 1 is positive — `np.interp(..., right=0)`
clamps the efficiency to 0 above the curve domain, so increasing flow
beyond `Q_n` *does* change (zero out) the computed power, although the
function's own docstring says efficiency above the curve maximum "is
the nominal efficiency". -/
theorem modeA_cap_not_flat :
    plantCurve.Q_n ≤ (1:ℚ) ∧ (1:ℚ) ≤ (2:ℚ) ∧
    output_from_eta_values plantCurve 1000 (981/100) 1 0 = 26487 ∧
    output_from_eta_values plantCurve 1000 (981/100) 2 0 = 0 := by
  refine ⟨by norm_num [plantCurve], by norm_num, ?_, ?_⟩ <;>
    norm_num [output_from_eta_values, interp0, plantCurve]

/-- Linear interpolation with zero fill stays non-negative when every
curve value is non-negative. -/
theorem interp0_nonneg : ∀ (curve : List (ℚ × ℚ)) (x : ℚ),
    (∀ pt ∈ curve, 0 ≤ pt.2) → 0 ≤ interp0 curve x
  | [], x, _ => by simp [interp0]
  | [(x0, y0)], x, h => by
    have h0 : 0 ≤ y0 := h (x0, y0) (by simp)
    simp only [interp0]
    split_ifs <;> simp [h0]
  | (x0, y0) :: (x1, y1) :: rest, x, h => by
    have h0 : 0 ≤ y0 := h (x0, y0) (by simp)
    have h1 : 0 ≤ y1 := h (x1, y1) (by simp)
    simp only [interp0]
    split_ifs with hlt hle
    · exact le_refl 0
    · push_neg at hlt
      rcases lt_trichotomy x0 x1 with hx | hx | hx
      · have ht0 : 0 ≤ (x - x0) / (x1 - x0) :=
          div_nonneg (by linarith) (by linarith)
        have ht1 : (x - x0) / (x1 - x0) ≤ 1 := by
          rw [div_le_one (by linarith)]; linarith
        have key : y0 + (y1 - y0) * (x - x0) / (x1 - x0) =
            y0 * (1 - (x - x0) / (x1 - x0)) +
              y1 * ((x - x0) / (x1 - x0)) := by ring
        rw [key]
        have k0 := mul_nonneg h0 (by linarith : (0:ℚ) ≤ 1 - (x - x0) / (x1 - x0))
        have k1 := mul_nonneg h1 ht0
        linarith
      · have hx0 : x = x0 := le_antisymm (hx ▸ hle) hlt
        rw [hx0]
        simp
        exact h0
      · linarith
    · exact interp0_nonneg ((x1, y1) :: rest) x
        (fun pt hpt => h pt (List.mem_cons_of_mem _ hpt))

/-- The plant used to refute the unconditional non-negativity of C8:
at level `W = 5` the factor `H_n + W_n − W = −4` is negative. -/
def plantNegHead : PlantOut :=
  { Q_n := 1, H_n := 1, W_n := 0, eta_gen := 9/10, eta_turb_values := [],
    load_min := 1/10, a1 := 1, a2 := 0, a3 := 0, eta_n := 9/10 }

/-- Counterexample for C8: with a level series whose value exceeds
`H_n + W_n`, the Mode B power of a timestep is strictly negative. -/
theorem power_nonneg_counterexample :
    output_from_parameters plantNegHead 1000 (981/100) 1 5 < 0 := by
  norm_num [output_from_parameters, plantNegHead]

/-- C8 as amended: under non-negative flow, nominal flow, densities,
efficiencies — and, what the counterexample forces, a water level not
above `H_n + W_n` (non-negative net head) and a non-negative Mode B
efficiency denominator — the per-timestep power is non-negative in both
modes, and it is exactly 0 whenever `load < load_min` (Mode B) or the
interpolated turbine efficiency is 0 (Mode A, e.g. flow 0). -/
theorem power_nonneg_amended (hpp : PlantOut) (rho g Q W : ℚ)
    (hQ : 0 ≤ Q) (hQn : 0 ≤ hpp.Q_n) (hg : 0 ≤ g) (hrho : 0 ≤ rho)
    (hgen : 0 ≤ hpp.eta_gen) (hW : W ≤ hpp.H_n + hpp.W_n)
    (hetan : 0 ≤ hpp.eta_n)
    (hden : 0 ≤ hpp.a1 + hpp.a2 * (Q / hpp.Q_n - hpp.load_min) +
      hpp.a3 * (Q / hpp.Q_n - hpp.load_min) * (Q / hpp.Q_n - hpp.load_min))
    (hcurve : ∀ pt ∈ hpp.eta_turb_values, 0 ≤ pt.2) :
    (0 ≤ output_from_parameters hpp rho g Q W ∧
      (Q / hpp.Q_n < hpp.load_min →
        output_from_parameters hpp rho g Q W = 0)) ∧
    (0 ≤ output_from_eta_values hpp rho g Q W ∧
      (interp0 hpp.eta_turb_values (Q / hpp.Q_n) = 0 →
        output_from_eta_values hpp rho g Q W = 0)) := by
  have hmin : 0 ≤ min Q hpp.Q_n := le_min hQ hQn
  have hhead : 0 ≤ hpp.H_n + hpp.W_n - W := by linarith
  refine ⟨⟨?_, ?_⟩, ?_, ?_⟩
  · simp only [output_from_parameters]
    have heta : 0 ≤
        (if Q / hpp.Q_n < hpp.load_min then 0
         else if Q / hpp.Q_n ≥ 1 then hpp.eta_n
         else (Q / hpp.Q_n - hpp.load_min) /
           (hpp.a1 + hpp.a2 * (Q / hpp.Q_n - hpp.load_min) +
             hpp.a3 * (Q / hpp.Q_n - hpp.load_min) *
               (Q / hpp.Q_n - hpp.load_min))) := by
      split_ifs with hlt hge
      · exact le_refl 0
      · exact hetan
      · exact div_nonneg (by push_neg at hlt; linarith) hden
    exact mul_nonneg (mul_nonneg (mul_nonneg (mul_nonneg
      (mul_nonneg heta hgen) hg) hrho) hmin) hhead
  · intro hlt
    simp only [output_from_parameters]
    rw [if_pos hlt]
    ring
  · exact mul_nonneg (mul_nonneg (mul_nonneg (mul_nonneg
      (mul_nonneg (interp0_nonneg _ _ hcurve) hgen) hg) hrho) hmin) hhead
  · intro h0
    simp only [output_from_eta_values]
    rw [h0]
    ring

/-- Witness for C8 at a concrete plant, flow 1/2 and level 0. -/
theorem power_nonneg_witness :
    (0 ≤ output_from_parameters plantCurve 1000 (981/100) (1/2) 0 ∧
      ((1:ℚ)/2 / plantCurve.Q_n < plantCurve.load_min →
        output_from_parameters plantCurve 1000 (981/100) (1/2) 0 = 0)) ∧
    (0 ≤ output_from_eta_values plantCurve 1000 (981/100) (1/2) 0 ∧
      (interp0 plantCurve.eta_turb_values ((1:ℚ)/2 / plantCurve.Q_n) = 0 →
        output_from_eta_values plantCurve 1000 (981/100) (1/2) 0 = 0)) :=
  power_nonneg_amended plantCurve 1000 (981/100) (1/2) 0
    (by norm_num) (by norm_num [plantCurve]) (by norm_num) (by norm_num)
    (by norm_num [plantCurve]) (by norm_num [plantCurve])
    (by norm_num [plantCurve]) (by norm_num [plantCurve])
    (by norm_num [plantCurve])

end Hydropowerlib
